import Mathlib

/-!
Verification of the adaptive RAG orchestrator of the `llm-gateway-py` service
(`services/llm_service.py`).  The Python source is shallowly embedded: pure
helpers become Lean functions; every external call (vector search, web search,
the structured grading / routing calls of the generative model, and the token
stream of the generator) is passed in as explicit oracle data, so that the
control flow of `LLMServicer.GenerateWithRAG` and its helpers is modelled
exactly while the network is abstracted.
-/

namespace LLMGateway

/-- `QueryRoute` from `llm_service.py` — routing options for adaptive RAG. -/
inductive QueryRoute where
  | VECTORSTORE
  | WEB_SEARCH
  | DIRECT_LLM
deriving DecidableEq, Repr

/-- An evidence document (`langchain_core.documents.Document`) as used by the
service: its text plus the `source` entry of its metadata mapping (`none`
models a metadata dict without a `source` key, in which case the prompt
builders substitute a default). -/
structure Document where
  page_content : String
  source : Option String
deriving DecidableEq, Repr

/-- Lowercasing of one character as performed by Python `str.lower()`,
restricted to the alphabet this service handles: ASCII letters plus the
precomposed Vietnamese letters (cf. `VIETNAMESE_CHARS` in
`utils/vietnamese.py`).  Other characters are left unchanged. -/
def viUpperLower : List (Char × Char) :=
  [('À', 'à'), ('Á', 'á'), ('Â', 'â'), ('Ã', 'ã'), ('È', 'è'), ('É', 'é'),
   ('Ê', 'ê'), ('Ì', 'ì'), ('Í', 'í'), ('Ò', 'ò'), ('Ó', 'ó'), ('Ô', 'ô'),
   ('Õ', 'õ'), ('Ù', 'ù'), ('Ú', 'ú'), ('Ý', 'ý'), ('Ă', 'ă'), ('Đ', 'đ'),
   ('Ĩ', 'ĩ'), ('Ũ', 'ũ'), ('Ơ', 'ơ'), ('Ư', 'ư'), ('Ạ', 'ạ'), ('Ả', 'ả'),
   ('Ấ', 'ấ'), ('Ầ', 'ầ'), ('Ẩ', 'ẩ'), ('Ẫ', 'ẫ'), ('Ậ', 'ậ'), ('Ắ', 'ắ'),
   ('Ằ', 'ằ'), ('Ẳ', 'ẳ'), ('Ẵ', 'ẵ'), ('Ặ', 'ặ'), ('Ẹ', 'ẹ'), ('Ẻ', 'ẻ'),
   ('Ẽ', 'ẽ'), ('Ế', 'ế'), ('Ề', 'ề'), ('Ể', 'ể'), ('Ễ', 'ễ'), ('Ệ', 'ệ'),
   ('Ỉ', 'ỉ'), ('Ị', 'ị'), ('Ọ', 'ọ'), ('Ỏ', 'ỏ'), ('Ố', 'ố'), ('Ồ', 'ồ'),
   ('Ổ', 'ổ'), ('Ỗ', 'ỗ'), ('Ộ', 'ộ'), ('Ớ', 'ớ'), ('Ờ', 'ờ'), ('Ở', 'ở'),
   ('Ỡ', 'ỡ'), ('Ợ', 'ợ'), ('Ụ', 'ụ'), ('Ủ', 'ủ'), ('Ứ', 'ứ'), ('Ừ', 'ừ'),
   ('Ử', 'ử'), ('Ữ', 'ữ'), ('Ự', 'ự'), ('Ỳ', 'ỳ'), ('Ỵ', 'ỵ'), ('Ỷ', 'ỷ'),
   ('Ỹ', 'ỹ')]

/-- One-character case folding for `pyLower`. -/
def toLowerPy (c : Char) : Char :=
  if 65 ≤ c.toNat ∧ c.toNat ≤ 90 then Char.ofNat (c.toNat + 32)
  else match viUpperLower.find? (fun p => p.1 = c) with
       | some p => p.2
       | none => c

/-- Python `s.lower()` over the alphabet handled by the service: `str.lower`
maps every code point independently on this alphabet, i.e. it is the
per-character map of `toLowerPy` over the string's characters. -/
def pyLower (s : String) : String := String.mk (s.data.map toLowerPy)

/-- Python `needle in haystack` substring containment on strings. -/
def strIn (needle haystack : String) : Prop :=
  needle.data <:+: haystack.data

instance (n h : String) : Decidable (strIn n h) :=
  inferInstanceAs (Decidable (n.data <:+: h.data))

/-- The Vietnamese university keyword list of `LLMServicer._route_query`. -/
def vietnamese_uni_keywords : List String :=
  ["đại học", "điểm chuẩn", "tuyển sinh", "ngành học",
   "trường", "khoa", "bách khoa", "kinh tế", "luật", "y khoa",
   "xét tuyển", "học phí", "đề án", "chỉ tiêu"]

/-- The general education/career keyword list of `LLMServicer._route_query`. -/
def education_keywords : List String :=
  ["university", "college", "admission", "degree", "course",
   "career", "job", "education", "study", "learn"]

/-- `LLMServicer._route_query`: lowercase the query; if any Vietnamese
university keyword occurs in it return `VECTORSTORE`; else if any general
education keyword occurs return `VECTORSTORE`; otherwise default to
`WEB_SEARCH`. -/
def route_query (query : String) : QueryRoute :=
  let query_lower := pyLower query
  if vietnamese_uni_keywords.any (fun k => decide (strIn k query_lower)) then
    QueryRoute.VECTORSTORE
  else if education_keywords.any (fun k => decide (strIn k query_lower)) then
    QueryRoute.VECTORSTORE
  else
    QueryRoute.WEB_SEARCH

/-- `LLMServicer._route_query_with_llm`: one structured routing call to the
model, constrained to the datasources `"vectorstore"` / `"web_search"`;
`oracle` is the outcome of that call (`Except.error` = any exception raised
by it, in which case the code falls back to the keyword router). -/
def route_query_with_llm (query : String) (oracle : Except Unit String) :
    QueryRoute :=
  match oracle with
  | Except.error _ => route_query query
  | Except.ok ds =>
    if ds = "web_search" then QueryRoute.WEB_SEARCH
    else if ds = "vectorstore" then QueryRoute.VECTORSTORE
    else QueryRoute.VECTORSTORE

/-- `LLMServicer._grade_documents`: per-document structured relevance grading.
The loop keeps a document when the grading call returns `"yes"`, drops it on
any other score, and keeps it when the call raises (`# On error, include the
document to be safe`).  `grader` is the outcome of the per-document call; the
query enters the Python function only through the text of the grading prompt,
which the oracle absorbs.  The empty-input early return of the source returns
the input list itself, which this recursion reproduces. -/
def grade_documents (grader : Document → Except Unit String) :
    List Document → List Document
  | [] => []
  | d :: ds =>
    match grader d with
    | Except.ok grade =>
      if grade = "yes" then d :: grade_documents grader ds
      else grade_documents grader ds
    | Except.error _ => d :: grade_documents grader ds

/-- `LLMServicer._grade_hallucinations`: with no documents return `True`
(`If no documents, can't check hallucinations`); otherwise make one
classification call (`callResult`; `Except.error` = the call raised, in which
case return `True` — `On error, assume no hallucination to be safe`) and
return whether the binary score is `"yes"`.  `generation` enters the Python
function only through the grading prompt, which the oracle absorbs. -/
def grade_hallucinations (generation : String) (documents : List Document)
    (callResult : Except Unit String) : Bool :=
  if documents.isEmpty then true
  else
    match callResult with
    | Except.ok grade => if grade = "yes" then true else false
    | Except.error _ => true

/-- Whitespace as stripped by Python `str.strip()` (the ASCII whitespace
characters; the full Unicode table is not needed for the claims here). -/
def pyIsSpace (c : Char) : Bool :=
  c = ' ' ∨ c = '\t' ∨ c = '\n' ∨ c = '\r' ∨ c = '\x0b' ∨ c = '\x0c'

/-- Python `s.strip()`: remove leading and trailing whitespace. -/
def pyStrip (s : String) : String :=
  String.mk (((s.data.dropWhile pyIsSpace).reverse.dropWhile pyIsSpace).reverse)

/-- `utils/helpers.validate_query` restricted to string arguments (the
non-string branches return `False` for non-`str` input, which the `String`
domain of this embedding excludes).  Python `len` on a string is its number
of code points, i.e. `String.length`. -/
def validate_query (query : String) : Bool :=
  if query = "" then false
  else
    let cleaned_query := pyStrip query
    if cleaned_query = "" ∨ cleaned_query.length < 2 then false
    else if cleaned_query.length > 10000 then false
    else true

/-- The `{question}`/`{context}` template `self.vietnamese_rag_prompt`,
with `str.format` applied. -/
def vietnamese_rag_prompt (question context : String) : String :=
  "Bạn là một trợ lý tư vấn giáo dục chuyên về hệ thống đại học Việt Nam.\n\nSử dụng thông tin từ các tài liệu được cung cấp để trả lời câu hỏi của người dùng.\n\nNếu bạn không biết câu trả lời dựa trên tài liệu, hãy nói rõ là bạn không có thông tin đủ.\n\nĐối với thông tin về điểm chuẩn và tuyển sinh, hãy cung cấp:\n- Tên trường và ngành học chính xác\n- Điểm chuẩn cụ thể\n- Tổ hợp môn thi\n- Phương thức xét tuyển\n- Năm áp dụng\n\nCâu hỏi: " ++ question ++ "\n\nThông tin tham khảo: " ++ context ++ "\n\nTrả lời:"

/-- The `{question}`/`{context}` template `self.english_rag_prompt`,
with `str.format` applied. -/
def english_rag_prompt (question context : String) : String :=
  "You are an assistant for question-answering tasks about Vietnamese university education system.\n\nUse the following pieces of retrieved context to answer the question about Vietnamese universities, admission scores, and educational programs.\n\nIf you don\x27t know the answer based on the provided context, say that you don\x27t have sufficient information.\n\nFor admission score and university information, provide:\n- Exact university and program names\n- Specific admission scores\n- Subject combinations required\n- Admission methods\n- Applicable year\n\nQuestion: " ++ question ++ "\n\nContext: " ++ context ++ "\n\nAnswer:"

/-- One numbered source block of `_build_vietnamese_rag_prompt`
(the f-string appended for document number `i`). -/
def viSourceBlock (i : Nat) (d : Document) : String :=
  "\n[Nguồn " ++ toString i ++ " - " ++ d.source.getD "cơ sở dữ liệu" ++
    "]:\n" ++ d.page_content ++ "\n"

/-- One numbered source block of `_build_english_rag_prompt`. -/
def enSourceBlock (i : Nat) (d : Document) : String :=
  "\n[Source " ++ toString i ++ " - " ++ d.source.getD "database" ++
    "]:\n" ++ d.page_content ++ "\n"

/-- The `context` accumulation loop of the prompt builders:
`for i, doc in enumerate(documents, start)` appending one block per
document. -/
def contextFrom (block : Nat → Document → String) : Nat → List Document → String
  | _, [] => ""
  | i, d :: ds => block i d ++ contextFrom block (i + 1) ds

/-- The no-evidence branch of `_build_vietnamese_rag_prompt` (the f-string
returned when `documents` is empty). -/
def viNoEvidencePrompt (query : String) : String :=
  "Bạn là một trợ lý AI chuyên về hướng nghiệp và giáo dục tại Việt Nam.\nTôi không có thông tin cụ thể cho câu hỏi này, vì vậy tôi sẽ cung cấp câu trả lời chung dựa trên kiến thức của mình.\n\nCâu hỏi: " ++ query ++ "\n\nTrả lời:"

/-- The no-evidence branch of `_build_english_rag_prompt`. -/
def enNoEvidencePrompt (query : String) : String :=
  "You are an AI assistant specializing in career guidance and education in Vietnam.\nI don\x27t have specific information for this question, so I\x27ll provide a general answer based on my knowledge.\n\nQuestion: " ++ query ++ "\n\nAnswer:"

/-- `LLMServicer._build_vietnamese_rag_prompt`. -/
def build_vietnamese_rag_prompt (query : String) (documents : List Document) :
    String :=
  if documents.isEmpty then viNoEvidencePrompt query
  else vietnamese_rag_prompt query (contextFrom viSourceBlock 1 documents)

/-- `LLMServicer._build_english_rag_prompt` (the statements after its first
`return` are unreachable and are not modelled). -/
def build_english_rag_prompt (query : String) (documents : List Document) :
    String :=
  if documents.isEmpty then enNoEvidencePrompt query
  else english_rag_prompt query (contextFrom enSourceBlock 1 documents)

/-- The prompt selection of the generation loop: Vietnamese template family
when `_is_vietnamese_text` returned true, English otherwise. -/
def build_rag_prompt (is_vietnamese : Bool) (query : String)
    (documents : List Document) : String :=
  if is_vietnamese then build_vietnamese_rag_prompt query documents
  else build_english_rag_prompt query documents

/-- Outcome of the routing/retrieval/grading/fallback phase of
`GenerateWithRAG` (source lines 537–560): the final `state.documents`,
the final `state.route`, and how many vector→web fallback transitions
were taken. -/
structure RetrievalResult where
  documents : List Document
  route : QueryRoute
  fallbacks : Nat
deriving DecidableEq, Repr

/-- The routing/retrieval/grading/fallback phase of `GenerateWithRAG`.
Oracles: `routeOracle` is the structured routing call of
`_route_query_with_llm` (used only when `adaptive`); `vectorDocs` is what
`_retrieve_documents` returns (it returns `[]` rather than raising when the
store is missing or errors); `webDocs` likewise for `_web_search_documents`;
`webConfigured` is the truthiness of `self.web_search`; `grader` is the
per-document relevance call of `_grade_documents`. -/
def retrievalPhase (adaptive : Bool) (prompt : String)
    (routeOracle : Except Unit String) (vectorDocs webDocs : List Document)
    (webConfigured : Bool) (grader : Document → Except Unit String) :
    RetrievalResult :=
  let route := if adaptive then route_query_with_llm prompt routeOracle
               else route_query prompt
  if route = QueryRoute.VECTORSTORE then
    let relevant_docs := grade_documents grader vectorDocs
    if relevant_docs.isEmpty ∧ webConfigured ∧ adaptive then
      ⟨webDocs, QueryRoute.WEB_SEARCH, 1⟩
    else
      ⟨relevant_docs, route, 0⟩
  else if route = QueryRoute.WEB_SEARCH then
    ⟨webDocs, route, 0⟩
  else
    ⟨[], route, 0⟩

/-- Outcome of the generation/grading retry loop of `GenerateWithRAG`
(source lines 563–604).  `yields` are the chunks yielded to the caller, each
tagged with the attempt index that produced it; `generation` is the final
`state.generation`; `executed` lists the attempt indices whose generation ran;
`graded` those on which `_grade_hallucinations` was invoked; `rejected` those
the grader judged not grounded. -/
structure GenResult where
  yields : List (Nat × String)
  generation : String
  executed : List Nat
  graded : List Nat
  rejected : List Nat
deriving DecidableEq, Repr

/-- The token stream of `self.llm.astream` at attempt `i`, with empty chunks
skipped (`if token:`). -/
def tokensOf (gen : Nat → List String) (i : Nat) : List String :=
  (gen i).filter (fun t => t ≠ "")

/-- The body of `for attempt in range(state.max_retries)` in
`GenerateWithRAG`, as a recursion over the remaining loop budget.
Per attempt: stream the model (`tokensOf`), accumulate `full_response`,
yield tokens in real time only when not adaptive or on the last attempt;
then, when adaptive with documents and retry budget remaining, grade
groundedness — on grounded, re-stream `full_response` (character by
character: Python iterates the string) and break; on not grounded,
continue; otherwise break. -/
def ragLoopAux (adaptive : Bool) (docs : List Document) (maxRetries : Nat)
    (gen : Nat → List String) (ground : Nat → Except Unit String) :
    String → Nat → Nat → GenResult
  | genPrev, _, 0 => ⟨[], genPrev, [], [], []⟩
  | _, attempt, r + 1 =>
    let toks := tokensOf gen attempt
    let full := String.join toks
    let realtime : List (Nat × String) :=
      if ¬adaptive ∨ attempt = maxRetries - 1 then
        toks.map (fun t => (attempt, t))
      else []
    if adaptive = true ∧ docs ≠ [] ∧ attempt < maxRetries - 1 then
      if grade_hallucinations full docs (ground attempt) then
        let restream : List (Nat × String) :=
          if attempt < maxRetries - 1 then
            full.data.map (fun c => (attempt, String.mk [c]))
          else []
        ⟨realtime ++ restream, full, [attempt], [attempt], []⟩
      else
        let rest := ragLoopAux adaptive docs maxRetries gen ground full
          (attempt + 1) r
        ⟨realtime ++ rest.yields, rest.generation, attempt :: rest.executed,
         attempt :: rest.graded, attempt :: rest.rejected⟩
    else
      ⟨realtime, full, [attempt], [], []⟩

/-- The generation/grading retry loop of `GenerateWithRAG`, entered with
attempt index 0, loop budget `maxRetries` and `state.generation = ""`. -/
def ragGenerationPhase (adaptive : Bool) (docs : List Document)
    (maxRetries : Nat) (gen : Nat → List String)
    (ground : Nat → Except Unit String) : GenResult :=
  ragLoopAux adaptive docs maxRetries gen ground "" 0 maxRetries

/-- `LLMServicer.GenerateWithRAG` without its outermost exception handler:
the retrieval phase followed by the generation loop on the resulting
documents. -/
def generateWithRAG (prompt : String) (adaptive : Bool) (maxRetries : Nat)
    (routeOracle : Except Unit String) (vectorDocs webDocs : List Document)
    (webConfigured : Bool) (grader : Document → Except Unit String)
    (gen : Nat → List String) (ground : Nat → Except Unit String) :
    RetrievalResult × GenResult :=
  let r := retrievalPhase adaptive prompt routeOracle vectorDocs webDocs
    webConfigured grader
  (r, ragGenerationPhase adaptive r.documents maxRetries gen ground)

/-- A word-set tokenizer following the spec wording of the heuristic
relevance strategy (split on spaces, distinct words).  This definition is
written from the spec, not from the source: no such heuristic exists in
`llm_service.py`; it is used only to compare the spec against the code. -/
def queryWords (s : String) : List (List Char) :=
  ((s.data.splitOn ' ').filter (fun w => w ≠ [])).dedup

/-- The heuristic relevance filter as the spec §4.4 words it: keep a document
when the overlap ratio `|query∩doc| / |query| ≥ 0.10` (rendered over naturals
as `10·|query∩doc| ≥ |query|`).  Written from the spec for comparison with
the source's `_grade_documents`; the source contains no heuristic strategy. -/
def heuristic_filter_spec (query : String) (docs : List Document) :
    List Document :=
  let qw := queryWords query
  docs.filter (fun d =>
    let dw := queryWords d.page_content
    10 * (qw.filter (fun w => w ∈ dw)).length ≥ qw.length)

/-- First index of `needle` in `hay`, character-list version (`none` when
`needle` does not occur).  Used to state where the question and the evidence
blocks sit inside an assembled prompt. -/
def listStartsWith : List Char → List Char → Bool
  | [], _ => true
  | _ :: _, [] => false
  | a :: as, b :: bs => a = b && listStartsWith as bs

/-- First occurrence position of one character list inside another. -/
def firstOccur (needle : List Char) : List Char → Option Nat
  | [] => if needle = [] then some 0 else none
  | c :: rest =>
    if listStartsWith needle (c :: rest) then some 0
    else
      match firstOccur needle rest with
      | some i => some (i + 1)
      | none => none

/-- The per-document keep condition implemented by the loop body of
`_grade_documents`: keep on score `"yes"`, keep on a raised grading call,
drop otherwise. -/
def keepDoc (grader : Document → Except Unit String) (d : Document) : Bool :=
  match grader d with
  | Except.ok grade => if grade = "yes" then true else false
  | Except.error _ => true

theorem grade_documents_eq_filter (grader : Document → Except Unit String)
    (docs : List Document) :
    grade_documents grader docs = docs.filter (keepDoc grader) := by
  induction docs with
  | nil => rfl
  | cons d ds ih =>
    simp only [grade_documents]
    cases hg : grader d with
    | ok s =>
      by_cases hs : s = "yes" <;>
        simp [List.filter_cons, keepDoc, hg, hs, ih]
    | error e => simp [List.filter_cons, keepDoc, hg, ih]

/-- C8: `_grade_documents` returns an in-order subsequence of its input
(no re-ranking, no documents added or modified), and every document whose
grading call raises is retained in the output; the function is total, so the
failure is never surfaced to the caller. -/
theorem grade_documents_order_and_fail_open
    (grader : Document → Except Unit String) (docs : List Document) :
    List.Sublist (grade_documents grader docs) docs ∧
    ∀ d ∈ docs, grader d = Except.error () →
      d ∈ grade_documents grader docs := by
  constructor
  · rw [grade_documents_eq_filter]
    exact List.filter_sublist docs
  · intro d hd he
    rw [grade_documents_eq_filter]
    exact List.mem_filter.mpr ⟨hd, by simp [keepDoc, he]⟩

/-- Witness for `grade_documents_order_and_fail_open`: a document whose
grading call raised is still present in the graded output. -/
theorem grade_documents_order_and_fail_open_witness :
    (⟨"d", none⟩ : Document) ∈
      grade_documents (fun _ => Except.error ()) [⟨"d", none⟩] :=
  (grade_documents_order_and_fail_open (fun _ => Except.error ())
    [⟨"d", none⟩]).2 ⟨"d", none⟩ (by simp) rfl

/-- C7: `_grade_hallucinations` returns `true` on an empty evidence list,
returns `true` when its single classification call raises, and otherwise
returns `true` exactly when the binary score is `"yes"`; it is a total
function, so it never raises to its caller. -/
theorem grade_hallucinations_fail_open (generation : String)
    (documents : List Document) (callResult : Except Unit String) :
    (documents = [] → grade_hallucinations generation documents callResult = true) ∧
    grade_hallucinations generation documents (Except.error ()) = true ∧
    (documents ≠ [] → ∀ s, callResult = Except.ok s →
      (grade_hallucinations generation documents callResult = true ↔ s = "yes")) := by
  refine ⟨fun h => by simp [grade_hallucinations, h], ?_, fun hne s hs => ?_⟩
  · cases documents <;> simp [grade_hallucinations]
  · subst hs
    have hemp : documents.isEmpty = false := by
      cases documents with
      | nil => exact absurd rfl hne
      | cons d ds => rfl
    by_cases h : s = "yes" <;> simp [grade_hallucinations, hemp, h]

/-- Witness for `grade_hallucinations_fail_open`: zero evidence documents
give `grounded = true` even when the classifier would have said no, and with
evidence present a `"yes"` score gives `grounded = true`. -/
theorem grade_hallucinations_fail_open_witness :
    grade_hallucinations "g" [] (Except.ok "no") = true ∧
    (grade_hallucinations "g" [⟨"d", none⟩] (Except.ok "yes") = true ↔
      "yes" = "yes") :=
  ⟨(grade_hallucinations_fail_open "g" [] (Except.ok "no")).1 rfl,
   (grade_hallucinations_fail_open "g" [⟨"d", none⟩]
      (Except.ok "yes")).2.2 (by simp) "yes" rfl⟩

/-- C5 (counterexample): in non-adaptive mode the relevance filter is NOT the
word-overlap heuristic the claim describes.  The query shares no word with
the document `"zzz"`, so the claimed heuristic (ratio `0.0 < 0.10`) would
always drop it with no model call involved; the code instead issues a model
grading call per document and retains the document when that call answers
`"yes"`. -/
theorem nonadaptive_filter_heuristic_counterexample :
    (retrievalPhase false "university admission" (Except.error ())
        [⟨"zzz", none⟩] [] false (fun _ => Except.ok "yes")).documents
      = [⟨"zzz", none⟩] ∧
    heuristic_filter_spec "university admission" [⟨"zzz", none⟩] = [] := by
  decide

/-- C5 (amended): in non-adaptive mode, retrieved documents are filtered by
the same per-document model-assisted grader used in adaptive mode
(`_grade_documents`): exactly the documents whose grading call returns
`"yes"` or raises are kept, in retrieval order; no word-overlap heuristic is
involved. -/
theorem nonadaptive_filter_is_model_grader (prompt : String)
    (routeOracle : Except Unit String) (vectorDocs webDocs : List Document)
    (webConfigured : Bool) (grader : Document → Except Unit String)
    (hroute : route_query prompt = QueryRoute.VECTORSTORE) :
    (retrievalPhase false prompt routeOracle vectorDocs webDocs webConfigured
        grader).documents
      = vectorDocs.filter (keepDoc grader) := by
  simp [retrievalPhase, hroute, grade_documents_eq_filter]

/-- Witness for `nonadaptive_filter_is_model_grader` at a concrete
keyword-routed query. -/
theorem nonadaptive_filter_is_model_grader_witness :
    route_query "university" = QueryRoute.VECTORSTORE ∧
    (retrievalPhase false "university" (Except.error ()) [⟨"zzz", none⟩] []
        false (fun _ => Except.ok "yes")).documents
      = [⟨"zzz", none⟩].filter (keepDoc (fun _ => Except.ok "yes")) :=
  ⟨by decide,
   nonadaptive_filter_is_model_grader "university" (Except.error ())
     [⟨"zzz", none⟩] [] false (fun _ => Except.ok "yes") (by decide)⟩

theorem route_query_cases (query : String) :
    (route_query query = QueryRoute.VECTORSTORE ∨
      route_query query = QueryRoute.WEB_SEARCH) ∧
    (route_query query = QueryRoute.VECTORSTORE ↔
      ((vietnamese_uni_keywords ++ education_keywords).any
        (fun k => decide (strIn k (pyLower query)))) = true) := by
  unfold route_query
  cases hv : vietnamese_uni_keywords.any
      (fun k => decide (strIn k (pyLower query))) <;>
    cases he : education_keywords.any
        (fun k => decide (strIn k (pyLower query))) <;>
      simp [List.any_append, hv, he]

/-- C6: the keyword router is a total deterministic function that returns
`VECTORSTORE` exactly when the lowercased query contains one of the curated
Vietnamese university or English education keywords, returns `WEB_SEARCH`
exactly when it contains none, and never returns `DIRECT_LLM`. -/
theorem route_query_keyword_semantics (query : String) :
    route_query query ≠ QueryRoute.DIRECT_LLM ∧
    (route_query query = QueryRoute.VECTORSTORE ↔
      ∃ k ∈ vietnamese_uni_keywords ++ education_keywords,
        strIn k (pyLower query)) ∧
    (route_query query = QueryRoute.WEB_SEARCH ↔
      ∀ k ∈ vietnamese_uni_keywords ++ education_keywords,
        ¬strIn k (pyLower query)) := by
  obtain ⟨hcases, hiff⟩ := route_query_cases query
  have hex : route_query query = QueryRoute.VECTORSTORE ↔
      ∃ k ∈ vietnamese_uni_keywords ++ education_keywords,
        strIn k (pyLower query) := by
    rw [hiff]
    simp only [List.any_eq_true, decide_eq_true_eq]
  refine ⟨?_, hex, ?_⟩
  · rcases hcases with h | h <;> simp [h]
  · rcases hcases with h | h
    · rw [h]
      constructor
      · intro hw; exact absurd hw (by simp)
      · intro hall
        exfalso
        obtain ⟨k, hk, hks⟩ := hex.mp h
        exact hall k hk hks
    · rw [h]
      constructor
      · intro _ k hk hks
        have hv := hex.mpr ⟨k, hk, hks⟩
        rw [h] at hv
        exact absurd hv (by simp)
      · intro _; rfl

/-- Witness for `route_query_keyword_semantics` at a concrete query. -/
theorem route_query_keyword_semantics_witness :
    route_query "Điểm chuẩn ngành Kinh tế" ≠ QueryRoute.DIRECT_LLM :=
  (route_query_keyword_semantics "Điểm chuẩn ngành Kinh tế").1

/-- Invariants of the generation retry loop, for a call entered at attempt
index `attempt` with `r` loop iterations of budget left out of `m` total. -/
def LoopSpec (m attempt r : Nat) (g : Nat → List String) (res : GenResult) :
    Prop :=
  res.executed.length ≤ r ∧
  (∀ i ∈ res.executed, attempt ≤ i ∧ i < m) ∧
  (∀ i ∈ res.graded, i + 1 < m) ∧
  (∀ p ∈ res.yields, p.1 + 1 = attempt + res.executed.length) ∧
  (∀ i ∈ res.rejected, i + 1 < attempt + res.executed.length) ∧
  (1 ≤ r → res.executed ≠ []) ∧
  (res.executed ≠ [] →
    res.generation = String.join (tokensOf g (attempt + res.executed.length - 1)))

theorem mem_ite_map_fst {c : Prop} [Decidable c] {α : Type} {l : List α}
    {f : α → String} {attempt : Nat} {p : Nat × String}
    (hp : p ∈ (if c then l.map (fun x => (attempt, f x)) else [])) :
    p.1 = attempt := by
  split at hp
  · obtain ⟨x, _, rfl⟩ := List.mem_map.mp hp
    rfl
  · simp at hp

theorem ragLoopAux_spec (a : Bool) (d : List Document) (m : Nat)
    (g : Nat → List String) (h : Nat → Except Unit String) :
    ∀ (r : Nat) (genPrev : String) (attempt : Nat), attempt + r = m →
      LoopSpec m attempt r g (ragLoopAux a d m g h genPrev attempt r) := by
  intro r
  induction r with
  | zero =>
    intro genPrev attempt hinv
    simp [ragLoopAux, LoopSpec]
  | succ r ih =>
    intro genPrev attempt hinv
    simp only [ragLoopAux]
    by_cases hc : a = true ∧ d ≠ [] ∧ attempt < m - 1
    · rw [if_pos hc]
      have hrt : ¬(¬(a = true) ∨ attempt = m - 1) := by
        rintro (h1 | h2)
        · exact h1 hc.1
        · omega
      by_cases hg : grade_hallucinations (String.join (tokensOf g attempt)) d
          (h attempt) = true
      · rw [if_pos hg, if_neg hrt, if_pos hc.2.2]
        refine ⟨by simp, ?_, ?_, ?_, by simp, by simp, ?_⟩
        · intro i hi
          simp only [List.mem_singleton] at hi
          subst hi
          omega
        · intro i hi
          simp only [List.mem_singleton] at hi
          subst hi
          omega
        · intro p hp
          simp only [List.nil_append] at hp
          obtain ⟨x, -, rfl⟩ := List.mem_map.mp hp
          simp
        · intro _
          simp
      · rw [if_neg hg, if_neg hrt]
        have hr1 : 1 ≤ r := by omega
        have hrec := ih (String.join (tokensOf g attempt)) (attempt + 1)
          (by omega)
        obtain ⟨L1, L2, L3, L4, L5, L6, L7⟩ := hrec
        have hne := L6 hr1
        have hlen := List.length_pos.mpr hne
        refine ⟨by simpa using L1, ?_, ?_, ?_, ?_, by simp, ?_⟩
        · intro i hi
          rcases List.mem_cons.mp hi with rfl | hi
          · omega
          · have := L2 i hi
            omega
        · intro i hi
          rcases List.mem_cons.mp hi with rfl | hi
          · omega
          · exact L3 i hi
        · intro p hp
          simp only [List.nil_append] at hp
          have := L4 p hp
          simp only [List.length_cons]
          omega
        · intro i hi
          simp only [List.length_cons]
          rcases List.mem_cons.mp hi with rfl | hi
          · omega
          · have := L5 i hi
            omega
        · intro _
          simp only [List.length_cons]
          have hgen := L7 hne
          have hidx : attempt + 1 +
              (ragLoopAux a d m g h (String.join (tokensOf g attempt))
                (attempt + 1) r).executed.length - 1 =
              attempt +
              ((ragLoopAux a d m g h (String.join (tokensOf g attempt))
                (attempt + 1) r).executed.length + 1) - 1 := by
            omega
          rw [hgen, hidx]
    · rw [if_neg hc]
      refine ⟨by simp, ?_, by simp, ?_, by simp, by simp, ?_⟩
      · intro i hi
        simp only [List.mem_singleton] at hi
        subst hi
        omega
      · intro p hp
        have := mem_ite_map_fst hp
        simp [this]
      · intro _
        simp

/-- C1: the generation loop of `GenerateWithRAG` runs at most `maxRetries`
generation attempts whatever the grader answers; every executed attempt has
index below `maxRetries`; the groundedness grader is never invoked on the
final attempt (indices in `graded` stay below `maxRetries - 1`, so the last
attempt's answer is accepted without a grading call); and the delivered
`generation` is exactly the full response of the last executed attempt. -/
theorem ragGenerationPhase_bounded_retries (adaptive : Bool)
    (docs : List Document) (maxRetries : Nat) (gen : Nat → List String)
    (ground : Nat → Except Unit String) :
    (ragGenerationPhase adaptive docs maxRetries gen ground).executed.length
        ≤ maxRetries ∧
    (∀ i ∈ (ragGenerationPhase adaptive docs maxRetries gen ground).executed,
        i < maxRetries) ∧
    (∀ i ∈ (ragGenerationPhase adaptive docs maxRetries gen ground).graded,
        i + 1 < maxRetries) ∧
    ((ragGenerationPhase adaptive docs maxRetries gen ground).executed ≠ [] →
      (ragGenerationPhase adaptive docs maxRetries gen ground).generation =
        String.join (tokensOf gen
          ((ragGenerationPhase adaptive docs maxRetries gen
              ground).executed.length - 1))) := by
  have hs := ragLoopAux_spec adaptive docs maxRetries gen ground maxRetries ""
    0 (by omega)
  obtain ⟨L1, L2, L3, _, _, _, L7⟩ := hs
  refine ⟨L1, fun i hi => (L2 i hi).2, L3, fun hne => ?_⟩
  have := L7 hne
  simpa using this

/-- Witness for `ragGenerationPhase_bounded_retries`: three consecutive
"not grounded" verdicts with `maxRetries = 3` execute attempts `0,1,2` only,
grade only attempts `0,1`, and deliver the third attempt's answer. -/
theorem ragGenerationPhase_bounded_retries_witness :
    (0 : Nat) < 3 ∧ (1 : Nat) + 1 < 3 ∧
    (ragGenerationPhase true [⟨"d", none⟩] 3 (fun _ => ["tok"])
        (fun _ => Except.ok "no")).generation = String.join (tokensOf
          (fun _ => ["tok"]) ((ragGenerationPhase true [⟨"d", none⟩] 3
            (fun _ => ["tok"]) (fun _ => Except.ok "no")).executed.length
              - 1)) := by
  have h := ragGenerationPhase_bounded_retries true [⟨"d", none⟩] 3
    (fun _ => ["tok"]) (fun _ => Except.ok "no")
  exact ⟨h.2.1 0 (by decide), h.2.2.1 1 (by decide), h.2.2.2 (by decide)⟩

/-- C2: in adaptive mode, every chunk yielded to the caller is tagged with
the index of the last executed (terminal) attempt; in particular no chunk
ever originates from an attempt the groundedness grader rejected. -/
theorem ragGenerationPhase_no_rejected_leakage (docs : List Document)
    (maxRetries : Nat) (gen : Nat → List String)
    (ground : Nat → Except Unit String) :
    (∀ p ∈ (ragGenerationPhase true docs maxRetries gen ground).yields,
      p.1 + 1 =
        (ragGenerationPhase true docs maxRetries gen
            ground).executed.length) ∧
    (∀ p ∈ (ragGenerationPhase true docs maxRetries gen ground).yields,
      p.1 ∉ (ragGenerationPhase true docs maxRetries gen ground).rejected) := by
  have hs := ragLoopAux_spec true docs maxRetries gen ground maxRetries ""
    0 (by omega)
  obtain ⟨_, _, _, L4, L5, _, _⟩ := hs
  constructor
  · intro p hp
    have := L4 p hp
    simpa using this
  · intro p hp hrej
    have h1 := L4 p hp
    have h2 := L5 p.1 hrej
    omega

/-- Witness for `ragGenerationPhase_no_rejected_leakage`: with a budget of
one attempt the single streamed chunk is tagged with the terminal attempt 0
and attempt 0 was not rejected. -/
theorem ragGenerationPhase_no_rejected_leakage_witness :
    ((0 : Nat), "tok").1 + 1 =
      (ragGenerationPhase true [⟨"d", none⟩] 1 (fun _ => ["tok"])
          (fun _ => Except.ok "no")).executed.length ∧
    ((0 : Nat), "tok").1 ∉
      (ragGenerationPhase true [⟨"d", none⟩] 1 (fun _ => ["tok"])
          (fun _ => Except.ok "no")).rejected := by
  have h := ragGenerationPhase_no_rejected_leakage [⟨"d", none⟩] 1
    (fun _ => ["tok"]) (fun _ => Except.ok "no")
  exact ⟨h.1 (0, "tok") (by decide), h.2 (0, "tok") (by decide)⟩

/-- C3 (divergence witness): an adaptive request whose document set ends up
empty — here the router picks web search and the web client returns no
results — completes the whole state machine yielding nothing at all: the
model's answer `"Hello"` is generated and recorded but never streamed, and
no error token is produced, contradicting the "never a silently empty
response" guarantee. -/
theorem generateWithRAG_silent_empty_stream :
    (generateWithRAG "What is machine learning" true 3 (Except.ok "web_search")
        [] [] false (fun _ => Except.ok "yes") (fun _ => ["Hello"])
        (fun _ => Except.ok "yes")).2.yields = [] ∧
    (generateWithRAG "What is machine learning" true 3 (Except.ok "web_search")
        [] [] false (fun _ => Except.ok "yes") (fun _ => ["Hello"])
        (fun _ => Except.ok "yes")).2.generation = "Hello" ∧
    (generateWithRAG "What is machine learning" true 3 (Except.ok "web_search")
        [] [] false (fun _ => Except.ok "yes") (fun _ => ["Hello"])
        (fun _ => Except.ok "yes")).2.executed = [0] := by
  decide

/-- C4: the VectorStore→WebSearch fallback of `GenerateWithRAG` fires at
most once per request; it fires exactly when the initial route is
`VECTORSTORE`, the relevance-filtered document set is empty, adaptive mode
is on and web search is configured; and when it fires the state's documents
are replaced wholesale by the web results (which undergo no relevance
grading) and the route becomes `WEB_SEARCH` for the remainder of the
request (the generation loop never modifies the route). -/
theorem retrievalPhase_fallback_once (adaptive : Bool) (prompt : String)
    (routeOracle : Except Unit String) (vectorDocs webDocs : List Document)
    (webConfigured : Bool) (grader : Document → Except Unit String) :
    (retrievalPhase adaptive prompt routeOracle vectorDocs webDocs
        webConfigured grader).fallbacks ≤ 1 ∧
    ((retrievalPhase adaptive prompt routeOracle vectorDocs webDocs
        webConfigured grader).fallbacks = 1 ↔
      ((if adaptive then route_query_with_llm prompt routeOracle
          else route_query prompt) = QueryRoute.VECTORSTORE ∧
        grade_documents grader vectorDocs = [] ∧
        adaptive = true ∧ webConfigured = true)) ∧
    ((retrievalPhase adaptive prompt routeOracle vectorDocs webDocs
        webConfigured grader).fallbacks = 1 →
      (retrievalPhase adaptive prompt routeOracle vectorDocs webDocs
          webConfigured grader).documents = webDocs ∧
      (retrievalPhase adaptive prompt routeOracle vectorDocs webDocs
          webConfigured grader).route = QueryRoute.WEB_SEARCH) := by
  unfold retrievalPhase
  by_cases h1 : (if adaptive then route_query_with_llm prompt routeOracle
      else route_query prompt) = QueryRoute.VECTORSTORE
  · rw [if_pos h1]
    by_cases h2 : ((grade_documents grader vectorDocs).isEmpty = true ∧
        webConfigured = true ∧ adaptive = true)
    · rw [if_pos h2]
      refine ⟨le_refl 1, ?_, fun _ => ⟨rfl, rfl⟩⟩
      simp only [true_iff]
      exact ⟨h1, List.isEmpty_iff.mp h2.1, h2.2.2, h2.2.1⟩
    · rw [if_neg h2]
      refine ⟨by simp, ?_, by simp⟩
      constructor
      · intro h; exact absurd h (by simp)
      · rintro ⟨-, hempty, hada, hweb⟩
        exact absurd ⟨List.isEmpty_iff.mpr hempty, hweb, hada⟩ h2
  · rw [if_neg h1]
    by_cases h2 : (if adaptive then route_query_with_llm prompt routeOracle
        else route_query prompt) = QueryRoute.WEB_SEARCH
    · rw [if_pos h2]
      refine ⟨by simp, ?_, by simp⟩
      constructor
      · intro h; exact absurd h (by simp)
      · rintro ⟨hv, -⟩; exact absurd hv h1
    · rw [if_neg h2]
      refine ⟨by simp, ?_, by simp⟩
      constructor
      · intro h; exact absurd h (by simp)
      · rintro ⟨hv, -⟩; exact absurd hv h1

/-- Witness for `retrievalPhase_fallback_once`: a concrete adaptive request
whose vector retrieval grades to empty falls back to the given web results
with route `WEB_SEARCH`. -/
theorem retrievalPhase_fallback_once_witness :
    (retrievalPhase true "q" (Except.ok "vectorstore") [] [⟨"w", none⟩] true
        (fun _ => Except.ok "yes")).documents = [⟨"w", none⟩] ∧
    (retrievalPhase true "q" (Except.ok "vectorstore") [] [⟨"w", none⟩] true
        (fun _ => Except.ok "yes")).route = QueryRoute.WEB_SEARCH :=
  (retrievalPhase_fallback_once true "q" (Except.ok "vectorstore") []
    [⟨"w", none⟩] true (fun _ => Except.ok "yes")).2.2 (by decide)

/-- C9 (counterexample): the empty query is not rejected before routing —
`GenerateWithRAG` performs no input validation at all.  On prompt `""` the
keyword router computes the route `WEB_SEARCH`, a generation attempt runs
and its tokens are streamed. -/
theorem empty_query_not_rejected :
    (generateWithRAG "" false 3 (Except.error ()) [] [] false
        (fun _ => Except.ok "yes") (fun _ => ["Hi"])
        (fun _ => Except.ok "yes")).1.route = QueryRoute.WEB_SEARCH ∧
    (generateWithRAG "" false 3 (Except.error ()) [] [] false
        (fun _ => Except.ok "yes") (fun _ => ["Hi"])
        (fun _ => Except.ok "yes")).2.executed = [0] ∧
    (generateWithRAG "" false 3 (Except.error ()) [] [] false
        (fun _ => Except.ok "yes") (fun _ => ["Hi"])
        (fun _ => Except.ok "yes")).2.yields = [(0, "Hi")] := by
  decide

/-- C9 (amended): `GenerateWithRAG` never calls `validate_query`; the empty
query reaches the router, which computes the route `WEB_SEARCH` for it,
whatever the backends return — while the unused helper `validate_query`
would indeed classify `""` as invalid. -/
theorem generateWithRAG_no_input_validation (maxRetries : Nat)
    (routeOracle : Except Unit String) (vectorDocs webDocs : List Document)
    (webConfigured : Bool) (grader : Document → Except Unit String)
    (gen : Nat → List String) (ground : Nat → Except Unit String) :
    validate_query "" = false ∧
    (generateWithRAG "" false maxRetries routeOracle vectorDocs webDocs
        webConfigured grader gen ground).1.route = QueryRoute.WEB_SEARCH := by
  refine ⟨rfl, ?_⟩
  have h : route_query "" = QueryRoute.WEB_SEARCH := by decide
  simp [generateWithRAG, retrievalPhase, h]

theorem strIn_of_parts (x a y s : String) (hs : s = x ++ a ++ y) :
    strIn a s := by
  refine ⟨x.data, y.data, ?_⟩
  rw [hs]
  simp [String.data_append]

theorem strIn_append_right (a b c : String) (h : strIn a b) :
    strIn a (b ++ c) := by
  have hbc : b.data <:+: (b ++ c).data := by
    rw [String.data_append]
    exact (List.prefix_append b.data c.data).isInfix
  exact List.IsInfix.trans h hbc

theorem strIn_append_left (a b c : String) (h : strIn a c) :
    strIn a (b ++ c) := by
  have hbc : c.data <:+: (b ++ c).data := by
    rw [String.data_append]
    exact (List.suffix_append b.data c.data).isInfix
  exact List.IsInfix.trans h hbc

theorem strIn_trans {a b c : String} (h1 : strIn a b) (h2 : strIn b c) :
    strIn a c :=
  List.IsInfix.trans h1 h2

theorem strIn_viSourceBlock (i : Nat) (d : Document) :
    strIn d.page_content (viSourceBlock i d) :=
  strIn_of_parts _ _ _ _ rfl

theorem strIn_enSourceBlock (i : Nat) (d : Document) :
    strIn d.page_content (enSourceBlock i d) :=
  strIn_of_parts _ _ _ _ rfl

theorem strIn_contextFrom (block : Nat → Document → String)
    (hb : ∀ i d, strIn d.page_content (block i d)) (docs : List Document) :
    ∀ i, ∀ d ∈ docs, strIn d.page_content (contextFrom block i docs) := by
  induction docs with
  | nil => intro i d hd; simp at hd
  | cons d0 ds ih =>
    intro i d hd
    simp only [contextFrom]
    rcases List.mem_cons.mp hd with rfl | hmem
    · exact strIn_append_right _ _ _ (hb i d)
    · exact strIn_append_left _ _ _ (ih (i + 1) d hmem)

/-- C10 (amended): the prompt assembler selects one of exactly two template
families according to the language verdict; with an empty document list it
returns the no-evidence branch; with a non-empty list the assembled prompt
consists of a fixed intro, the question, a fixed middle, the numbered source
blocks concatenated in retrieval order, and a fixed tail — so the blocks are
PRECEDED by the question (the claim's "followed by the question" has the
order backwards) — and every document's content appears literally and
unmodified inside the prompt. -/
theorem build_rag_prompt_assembly (is_vietnamese : Bool) (query : String)
    (documents : List Document) :
    (documents = [] → build_rag_prompt is_vietnamese query documents =
      (if is_vietnamese then viNoEvidencePrompt query
        else enNoEvidencePrompt query)) ∧
    (documents ≠ [] → ∃ pre mid tail : String,
      build_rag_prompt is_vietnamese query documents =
        pre ++ query ++ mid ++
          contextFrom (if is_vietnamese then viSourceBlock else enSourceBlock)
            1 documents ++ tail) ∧
    (∀ d ∈ documents,
      strIn d.page_content (build_rag_prompt is_vietnamese query documents)) := by
  refine ⟨fun h => ?_, fun hne => ?_, fun d hd => ?_⟩
  · subst h
    cases is_vietnamese <;> rfl
  · obtain ⟨d0, ds, rfl⟩ := List.exists_cons_of_ne_nil hne
    cases is_vietnamese
    · exact ⟨_, _, _, rfl⟩
    · exact ⟨_, _, _, rfl⟩
  · have hne : documents ≠ [] := List.ne_nil_of_mem hd
    obtain ⟨d0, ds, rfl⟩ := List.exists_cons_of_ne_nil hne
    cases is_vietnamese
    · have h1 : strIn d.page_content (contextFrom enSourceBlock 1 (d0 :: ds)) :=
        strIn_contextFrom enSourceBlock strIn_enSourceBlock (d0 :: ds) 1 d hd
      exact strIn_trans h1 (strIn_of_parts _ _ _ _ rfl)
    · have h1 : strIn d.page_content (contextFrom viSourceBlock 1 (d0 :: ds)) :=
        strIn_contextFrom viSourceBlock strIn_viSourceBlock (d0 :: ds) 1 d hd
      exact strIn_trans h1 (strIn_of_parts _ _ _ _ rfl)

/-- Witness for `build_rag_prompt_assembly`: a concrete document's content
occurs literally in the assembled English prompt. -/
theorem build_rag_prompt_assembly_witness :
    strIn (Document.mk "DOCBODY" none).page_content
      (build_rag_prompt false "QBODY" [⟨"DOCBODY", none⟩]) :=
  (build_rag_prompt_assembly false "QBODY" [⟨"DOCBODY", none⟩]).2.2
    ⟨"DOCBODY", none⟩ (by simp)

set_option maxRecDepth 16000

/-- C10 (counterexample): the claim says the numbered source blocks are
"followed by the question".  In the assembled English prompt for question
`"MYQUESTIONX"` over one document, the context block first occurs at
character position 576 while the question's only occurrence starts at
position 554, and the question never occurs at or after the context's
position — the question precedes the blocks, it does not follow them. -/
theorem prompt_blocks_not_followed_by_question :
    firstOccur (contextFrom enSourceBlock 1 [⟨"DOCCONTENTY", none⟩]).data
        (build_english_rag_prompt "MYQUESTIONX" [⟨"DOCCONTENTY", none⟩]).data
      = some 576 ∧
    firstOccur "MYQUESTIONX".data
        (build_english_rag_prompt "MYQUESTIONX" [⟨"DOCCONTENTY", none⟩]).data
      = some 554 ∧
    firstOccur "MYQUESTIONX".data
        ((build_english_rag_prompt "MYQUESTIONX"
            [⟨"DOCCONTENTY", none⟩]).data.drop 576) = none := by
  decide

end LLMGateway
